import Mathlib

/-!
Shallow embedding of `pkg/security/ebpf/c/rmdir.h`: the three eBPF probes
tracking directory-removal (and unlink) syscalls.

The probes call helpers declared in `syscalls.h` and friends, which are not
part of this repository snapshot.  Those collaborators are modelled from the
spec: the per-thread syscall registry (`cache_syscall` / `peek_syscall` /
`pop_syscall`), the inode-cache invalidation, the per-mount discarder
revision counter, the discard-filter and path-resolution oracles, and the
event sink.  External, input-like collaborators are bundled in a `Config`
record; effectful collaborators act on a `Kernel` record that logs every
observable effect (events sent, inode invalidations, path-resolution calls).

The C `struct syscall_cache_t` keeps its per-syscall data in a union, so the
`rmdir` and `unlink` members alias the same storage; following the spec's
data model (a single `identity` / `overlay_depth` per SyscallState), the
union is embedded as one shared `del` field with `rmdir` / `unlink`
accessors.
-/

namespace RmdirProbe

/-- Modelled from the spec: syscall-kind bitmask constants (`syscalls.h` is
not in the snapshot); only distinctness and disjointness of the bits
matter. -/
def SYSCALL_RMDIR : Nat := 1

/-- Modelled from the spec: the unlink syscall-kind bit. -/
def SYSCALL_UNLINK : Nat := 2

/-- Modelled from the spec: event-kind discriminator for directory removal. -/
def EVENT_RMDIR : Nat := 2

/-- Modelled from the spec: event-kind discriminator for unlink. -/
def EVENT_UNLINK : Nat := 3

/-- Modelled from the spec: the `NO_FILTER` policy mode ("NoFilter and one or
more active-filter variants"); only comparison with it matters. -/
def NO_FILTER : Nat := 0

/-- Modelled from the spec: the sentinel return code of `resolve_dentry`
reporting that path resolution discards the object. -/
def DENTRY_DISCARDED : Int := -1

/-- The `path_key_t` object identity: inode, mount id, path disambiguator. -/
structure path_key_t where
  ino : Nat
  mount_id : Nat
  path_id : Nat
deriving DecidableEq, Repr

/-- The per-deletion data of `syscall_cache_t`: the object identity and the
overlay lower-layer count. In the C union this block is shared by the
`rmdir` and `unlink` views. -/
structure deletion_file_t where
  path_key : path_key_t
  overlay_numlower : Nat
deriving DecidableEq, Repr

/-- Modelled from the spec: `struct syscall_cache_t` (declared in
`syscalls.h`): the syscall kind tag, the discard-policy mode selected at
entry, and the per-deletion union block. -/
structure syscall_cache_t where
  type : Nat
  policy_mode : Nat
  del : deletion_file_t
deriving DecidableEq, Repr

/-- The `rmdir` view of the union block of `syscall_cache_t`. -/
def syscall_cache_t.rmdir (s : syscall_cache_t) : deletion_file_t := s.del

/-- The `unlink` view of the union block of `syscall_cache_t` (aliases
`rmdir`). -/
def syscall_cache_t.unlink (s : syscall_cache_t) : deletion_file_t := s.del

/-- The `file_t` block of an emitted event. -/
structure file_t where
  inode : Nat
  mount_id : Nat
  overlay_numlower : Nat
  path_id : Nat
deriving DecidableEq, Repr

/-- The `rmdir_event_t` record sent to the sink; `event_type` is the kind
discriminator stamped by `send_event`, `process` / `container` stand for the
attribution blocks filled by the context collaborators. -/
structure rmdir_event_t where
  event_type : Nat
  retval : Int
  file : file_t
  discarder_revision : Nat
  process : Nat
  container : Nat
deriving DecidableEq, Repr

/-- External collaborators that behave as pure inputs for a single tracked
syscall: the entry-time policy mode, dentry field resolution, the process
discard filter, the path resolver's verdict, event enablement, the
return-code classifier `IS_UNHANDLED_ERROR`, and the context providers. -/
structure Config where
  entry_policy : Nat
  dentry_ino : Nat → Nat
  dentry_path_id : Nat → Nat
  get_overlay_numlower : Nat → Nat
  discarded_by_process : Nat → Nat → Bool
  resolve_dentry_ret : Nat → path_key_t → Nat → Int
  is_event_enabled : Nat → Bool
  is_unhandled_error : Int → Bool
  fill_process : Nat
  fill_container : Nat → Nat

/-- The observable kernel-side state for one thread: the pending
SyscallState slot of the registry, the per-mount discarder revisions, and
chronological logs of events sent, inode-cache invalidations
`(mount_id, ino, flag)`, and `resolve_dentry` calls
`(dentry, key, event_type_arg)`. -/
structure Kernel where
  pending : Option syscall_cache_t
  revisions : Nat → Nat
  events : List rmdir_event_t
  invalidations : List (Nat × Nat × Bool)
  resolve_calls : List (Nat × path_key_t × Nat)

/-- A kernel state with no pending syscall and empty effect logs. -/
def init_kernel (rev0 : Nat → Nat) : Kernel :=
  { pending := none, revisions := rev0, events := [], invalidations := [],
    resolve_calls := [] }

/-- Modelled from the spec: `peek(thread, kind_mask)` of the registry —
non-destructive lookup matching the kind bitmask. -/
def peek_syscall (mask : Nat) (k : Kernel) : Option syscall_cache_t :=
  match k.pending with
  | some s => if s.type &&& mask ≠ 0 then some s else none
  | none => none

/-- Modelled from the spec: `pop(thread, kind_mask)` of the registry —
removes and returns the pending state when its kind matches the bitmask. -/
def pop_syscall (mask : Nat) (k : Kernel) : Option syscall_cache_t × Kernel :=
  match k.pending with
  | some s =>
      if s.type &&& mask ≠ 0 then (some s, { k with pending := none })
      else (none, k)
  | none => (none, k)

/-- Modelled from the spec: `create(thread, kind)` of the registry — stores
the state, a no-op when one is already pending ("fails if already
pending"). -/
def cache_syscall (s : syscall_cache_t) (k : Kernel) : Kernel :=
  match k.pending with
  | some _ => k
  | none => { k with pending := some s }

/-- Modelled from the spec: `invalidate_inode(ctx, mount_id, ino, flag)` —
logged as an effect. -/
def invalidate_inode (mount_id ino : Nat) (flag : Bool) (k : Kernel) : Kernel :=
  { k with invalidations := k.invalidations ++ [(mount_id, ino, flag)] }

/-- Modelled from the spec: `bump_discarder_revision(mount_id)` — atomically
increments the per-mount counter and returns the new value ("previous value
+ 1"). -/
def bump_discarder_revision (mount_id : Nat) (k : Kernel) : Nat × Kernel :=
  let r := k.revisions mount_id + 1
  (r, { k with revisions := fun m => if m = mount_id then r else k.revisions m })

/-- Modelled from the spec: `send_event(ctx, kind, event)` — appends the
record to the sink log. -/
def send_event (e : rmdir_event_t) (k : Kernel) : Kernel :=
  { k with events := k.events ++ [e] }

/-- Modelled from the spec: `set_path_key_inode(dentry, &key, 1)` — resolves
the inode number and path disambiguator from the dentry, keeping the mount
id already placed by `kprobe/mnt_want_write`. -/
def set_path_key_inode (cfg : Config) (dentry : Nat) (key : path_key_t) :
    path_key_t :=
  { key with ino := cfg.dentry_ino dentry, path_id := cfg.dentry_path_id dentry }

/-- Modelled from the spec and the source comment: `kprobe/mnt_want_write`
resolves the mount id of the pending state's path key before the
`security_inode_rmdir` hook runs. -/
def kprobe_mnt_want_write (mount_id : Nat) (k : Kernel) : Kernel :=
  match k.pending with
  | some s =>
      let key2 := { s.del.path_key with mount_id := mount_id }
      let s2 := { s with del := { s.del with path_key := key2 } }
      { k with pending := some s2 }
  | none => k

/-- `SYSCALL_KPROBE0(rmdir)`: caches a fresh `syscall_cache_t` of type
`SYSCALL_RMDIR`; its policy mode is populated by the surrounding policy
subsystem (spec 4.2), here taken from the config. -/
def syscall_kprobe0_rmdir (cfg : Config) (k : Kernel) : Int × Kernel :=
  let syscall : syscall_cache_t :=
    { type := SYSCALL_RMDIR, policy_mode := cfg.entry_policy,
      del := { path_key := { ino := 0, mount_id := 0, path_id := 0 },
               overlay_numlower := 0 } }
  (0, cache_syscall syscall k)

/-- The common tail of `kprobe__security_inode_rmdir` after the `switch`:
the process discard filter, then (when a dentry is at hand)
`resolve_dentry` with the effective event kind, popping the state when the
resolver discards. -/
def resolution_tail (cfg : Config) (dentry : Option Nat) (key : path_key_t)
    (event_type : Nat) (syscall : syscall_cache_t) (k : Kernel) : Int × Kernel :=
  if cfg.discarded_by_process syscall.policy_mode event_type then
    (0, invalidate_inode key.mount_id key.ino true k)
  else
    match dentry with
    | none => (0, k)
    | some d =>
      let ev_arg := if syscall.policy_mode ≠ NO_FILTER then event_type else 0
      let k := { k with resolve_calls := k.resolve_calls ++ [(d, key, ev_arg)] }
      if cfg.resolve_dentry_ret d key ev_arg = DENTRY_DISCARDED then
        (0, (pop_syscall syscall.type (invalidate_inode key.mount_id key.ino true k)).2)
      else
        (0, k)

/-- `kprobe__security_inode_rmdir`: peeks the pending rmdir/unlink state,
freezes the object identity from the dentry unless already frozen (sentinel
inode 0), then runs the discard filter and path resolution. -/
def kprobe_security_inode_rmdir (cfg : Config) (dentry : Nat) (k : Kernel) :
    Int × Kernel :=
  match peek_syscall (SYSCALL_RMDIR ||| SYSCALL_UNLINK) k with
  | none => (0, k)
  | some syscall =>
    if syscall.type = SYSCALL_RMDIR then
      if syscall.rmdir.path_key.ino ≠ 0 then (0, k)
      else
        let key := set_path_key_inode cfg dentry syscall.rmdir.path_key
        let syscall :=
          { syscall with del :=
            { path_key := key,
              overlay_numlower := cfg.get_overlay_numlower dentry } }
        let k := { k with pending := some syscall }
        resolution_tail cfg (some dentry) key EVENT_RMDIR syscall k
    else if syscall.type = SYSCALL_UNLINK then
      if syscall.unlink.path_key.ino ≠ 0 then (0, k)
      else
        let key := set_path_key_inode cfg dentry syscall.unlink.path_key
        let syscall :=
          { syscall with del :=
            { path_key := key,
              overlay_numlower := cfg.get_overlay_numlower dentry } }
        let k := { k with pending := some syscall }
        resolution_tail cfg (some dentry) key EVENT_UNLINK syscall k
    else
      resolution_tail cfg none { ino := 0, mount_id := 0, path_id := 0 } 0 syscall k

/-- The `struct rmdir_event_t` literal built by the kretprobe: retval, the
file identity read through the `rmdir` union view, the freshly bumped
revision, and the attribution blocks. -/
def rmdir_event (cfg : Config) (retval : Int) (s : syscall_cache_t)
    (rev : Nat) : rmdir_event_t :=
  { event_type := EVENT_RMDIR, retval := retval,
    file := { inode := s.rmdir.path_key.ino,
              mount_id := s.rmdir.path_key.mount_id,
              overlay_numlower := s.rmdir.overlay_numlower,
              path_id := s.rmdir.path_key.path_id },
    discarder_revision := rev,
    process := cfg.fill_process,
    container := cfg.fill_container cfg.fill_process }

/-- `SYSCALL_KRETPROBE(rmdir)`: pops the pending rmdir/unlink state,
classifies the return code, emits the event when `EVENT_RMDIR` is enabled,
and always invalidates the inode cache entry, flag `!enabled`. -/
def syscall_kretprobe_rmdir (cfg : Config) (retval : Int) (k : Kernel) :
    Int × Kernel :=
  match pop_syscall (SYSCALL_RMDIR ||| SYSCALL_UNLINK) k with
  | (none, k) => (0, k)
  | (some syscall, k) =>
    if cfg.is_unhandled_error retval then
      (0, invalidate_inode syscall.rmdir.path_key.mount_id
            syscall.rmdir.path_key.ino false k)
    else
      let enabled := cfg.is_event_enabled EVENT_RMDIR
      let k :=
        if enabled then
          let br := bump_discarder_revision syscall.rmdir.path_key.mount_id k
          send_event (rmdir_event cfg retval syscall br.1) br.2
        else k
      (0, invalidate_inode syscall.rmdir.path_key.mount_id
            syscall.rmdir.path_key.ino (!enabled) k)

/-- The full single-thread sequence of one tracked rmdir syscall: entry
probe, mount-id resolution, identity-resolution hook, return probe. -/
def run_full (cfg : Config) (mount dentry : Nat) (retval : Int)
    (rev0 : Nat → Nat) : Kernel :=
  let k := init_kernel rev0
  let k := (syscall_kprobe0_rmdir cfg k).2
  let k := kprobe_mnt_want_write mount k
  let k := (kprobe_security_inode_rmdir cfg dentry k).2
  (syscall_kretprobe_rmdir cfg retval k).2

/-- A config on which nothing discards, every event kind is enabled, and
negative return codes are unhandled errors. -/
def cfg_ok : Config :=
  { entry_policy := 0, dentry_ino := fun d => d + 100,
    dentry_path_id := fun _ => 7, get_overlay_numlower := fun _ => 0,
    discarded_by_process := fun _ _ => false,
    resolve_dentry_ret := fun _ _ _ => 0,
    is_event_enabled := fun _ => true,
    is_unhandled_error := fun r => decide (r < 0),
    fill_process := 0, fill_container := fun _ => 0 }

/-- A config whose process discard filter always discards. -/
def cfg_pdisc : Config := { cfg_ok with discarded_by_process := fun _ _ => true }

/-- A config whose path resolver always reports discard. -/
def cfg_rdisc : Config :=
  { cfg_ok with resolve_dentry_ret := fun _ _ _ => DENTRY_DISCARDED }

/-- A config with event emission disabled for every kind. -/
def cfg_disabled : Config := { cfg_ok with is_event_enabled := fun _ => false }

/-- A pending rmdir state whose identity is already frozen (inode 42). -/
def s_frozen : syscall_cache_t :=
  { type := SYSCALL_RMDIR, policy_mode := 0,
    del := { path_key := { ino := 42, mount_id := 5, path_id := 1 },
             overlay_numlower := 0 } }

/-- A kernel state holding `s_frozen` as the pending syscall. -/
def k_frozen : Kernel :=
  { init_kernel (fun _ => 3) with pending := some s_frozen }

theorem rmdir_mask_ne : SYSCALL_RMDIR &&& (SYSCALL_RMDIR ||| SYSCALL_UNLINK) ≠ 0 := by
  decide

theorem unlink_mask_ne : SYSCALL_UNLINK &&& (SYSCALL_RMDIR ||| SYSCALL_UNLINK) ≠ 0 := by
  decide

theorem resolution_tail_fst_zero (cfg : Config) (dentry : Option Nat)
    (key : path_key_t) (et : Nat) (s : syscall_cache_t) (k : Kernel) :
    (resolution_tail cfg dentry key et s k).1 = 0 := by
  unfold resolution_tail
  split
  · rfl
  · split
    · rfl
    · dsimp only
      split <;> split <;> rfl

theorem unlink_ne_rmdir : SYSCALL_UNLINK ≠ SYSCALL_RMDIR := by decide

theorem syscall_rmdir_ne_zero : SYSCALL_RMDIR ≠ 0 := by decide

theorem syscall_unlink_ne_zero : SYSCALL_UNLINK ≠ 0 := by decide

theorem kprobe_security_fst_zero (cfg : Config) (d : Nat) (k : Kernel) :
    (kprobe_security_inode_rmdir cfg d k).1 = 0 := by
  unfold kprobe_security_inode_rmdir
  split
  · rfl
  · split
    · split
      · rfl
      · dsimp only
        apply resolution_tail_fst_zero
    · split
      · split
        · rfl
        · dsimp only
          apply resolution_tail_fst_zero
      · apply resolution_tail_fst_zero

theorem kretprobe_fst_zero (cfg : Config) (retval : Int) (k : Kernel) :
    (syscall_kretprobe_rmdir cfg retval k).1 = 0 := by
  unfold syscall_kretprobe_rmdir
  split
  · rfl
  · split
    · rfl
    · rfl

/-- C9: each of the three probes returns the neutral status 0 on every
execution path, for every config, input and kernel state. -/
theorem C9_probes_always_return_zero (cfg : Config) (d : Nat) (retval : Int)
    (k : Kernel) :
    (syscall_kprobe0_rmdir cfg k).1 = 0 ∧
    (kprobe_security_inode_rmdir cfg d k).1 = 0 ∧
    (syscall_kretprobe_rmdir cfg retval k).1 = 0 :=
  ⟨rfl, kprobe_security_fst_zero cfg d k, kretprobe_fst_zero cfg retval k⟩

/-- C3: when the pending state's identity inode is already non-zero, the
identity-resolution probe leaves the kernel state completely unchanged (no
filter evaluation, no path-resolution call, no invalidation), and a second
invocation is equivalent to a single one. -/
theorem C3_idempotent_resolution (cfg : Config) (d d2 : Nat) (k : Kernel)
    (s : syscall_cache_t) (hp : k.pending = some s)
    (ht : s.type = SYSCALL_RMDIR ∨ s.type = SYSCALL_UNLINK)
    (hino : s.rmdir.path_key.ino ≠ 0) :
    kprobe_security_inode_rmdir cfg d k = (0, k) ∧
    kprobe_security_inode_rmdir cfg d2 (kprobe_security_inode_rmdir cfg d k).2 =
      kprobe_security_inode_rmdir cfg d2 k := by
  have h1 : kprobe_security_inode_rmdir cfg d k = (0, k) := by
    unfold kprobe_security_inode_rmdir peek_syscall
    rw [hp]
    rcases ht with h | h
    · simp [h, rmdir_mask_ne, hino]
    · simp only [syscall_cache_t.rmdir] at hino
      simp [h, unlink_mask_ne, unlink_ne_rmdir, syscall_cache_t.unlink, hino]
  exact ⟨h1, by rw [h1]⟩

/-- Closed instance of C3: the frozen state is untouched by a repeat of the
resolution probe. -/
theorem C3_idempotent_resolution_witness :
    kprobe_security_inode_rmdir cfg_ok 1 k_frozen = (0, k_frozen) ∧
    kprobe_security_inode_rmdir cfg_ok 2
        (kprobe_security_inode_rmdir cfg_ok 1 k_frozen).2 =
      kprobe_security_inode_rmdir cfg_ok 2 k_frozen :=
  C3_idempotent_resolution cfg_ok 1 2 k_frozen s_frozen rfl (Or.inl rfl)
    (by decide)

theorem invalidate_inode_revisions (m i : Nat) (f : Bool) (k : Kernel) :
    (invalidate_inode m i f k).revisions = k.revisions := rfl

theorem pop_syscall_revisions (mask : Nat) (k : Kernel) :
    ((pop_syscall mask k).2).revisions = k.revisions := by
  unfold pop_syscall
  split
  · split <;> rfl
  · rfl

theorem resolution_tail_revisions (cfg : Config) (dentry : Option Nat)
    (key : path_key_t) (et : Nat) (s : syscall_cache_t) (k : Kernel) :
    ((resolution_tail cfg dentry key et s k).2).revisions = k.revisions := by
  unfold resolution_tail
  split
  · rfl
  · split
    · rfl
    · dsimp only
      split <;> split <;>
        simp [pop_syscall_revisions, invalidate_inode_revisions]

theorem kprobe_security_revisions (cfg : Config) (d : Nat) (k : Kernel) :
    ((kprobe_security_inode_rmdir cfg d k).2).revisions = k.revisions := by
  unfold kprobe_security_inode_rmdir
  split
  · rfl
  · split
    · split
      · rfl
      · dsimp only
        rw [resolution_tail_revisions]
    · split
      · split
        · rfl
        · dsimp only
          rw [resolution_tail_revisions]
      · rw [resolution_tail_revisions]

/-- C1: a full Entry → mount-id → Resolution → Exit sequence for one tracked
rmdir, with no process discard, no path-resolution discard, a handled return
code and the event kind enabled, sends exactly one event to the sink. -/
theorem C1_exactly_once_emission (cfg : Config) (m d : Nat) (retval : Int)
    (rev0 : Nat → Nat)
    (hpd : cfg.discarded_by_process cfg.entry_policy EVENT_RMDIR = false)
    (hrd : ∀ key ev, cfg.resolve_dentry_ret d key ev ≠ DENTRY_DISCARDED)
    (herr : cfg.is_unhandled_error retval = false)
    (hen : cfg.is_event_enabled EVENT_RMDIR = true) :
    (run_full cfg m d retval rev0).events.length = 1 := by
  simp [run_full, init_kernel, syscall_kprobe0_rmdir, cache_syscall,
    kprobe_mnt_want_write, kprobe_security_inode_rmdir, peek_syscall,
    set_path_key_inode, resolution_tail, syscall_kretprobe_rmdir, pop_syscall,
    bump_discarder_revision, send_event, invalidate_inode, rmdir_event,
    syscall_cache_t.rmdir, rmdir_mask_ne, syscall_rmdir_ne_zero,
    syscall_unlink_ne_zero, hpd, hrd, herr, hen]

/-- Closed instance of C1 on the all-permissive config. -/
theorem C1_exactly_once_emission_witness :
    (run_full cfg_ok 5 1 0 (fun _ => 0)).events.length = 1 :=
  C1_exactly_once_emission cfg_ok 5 1 0 (fun _ => 0) rfl
    (fun _ _ => (by decide : (0 : Int) ≠ DENTRY_DISCARDED)) (by decide) rfl

/-- C2 as stated is false on the code: when the process discard filter (not
path resolution) discards, the resolution probe invalidates the cache and
returns without popping, so the exit pop still finds the state, a second
invalidation happens, and an event is even emitted. -/
theorem C2_counterexample :
    ((pop_syscall (SYSCALL_RMDIR ||| SYSCALL_UNLINK)
        ((kprobe_security_inode_rmdir cfg_pdisc 1
          (kprobe_mnt_want_write 5
            (syscall_kprobe0_rmdir cfg_pdisc (init_kernel (fun _ => 0))).2)).2)).1).isSome
      = true ∧
    (run_full cfg_pdisc 5 1 0 (fun _ => 0)).events.length = 1 ∧
    (run_full cfg_pdisc 5 1 0 (fun _ => 0)).invalidations.length = 2 := by
  decide

/-- C2 amended: when PATH RESOLUTION reports discard (the process filter
not discarding), the resolution probe pops the state, a subsequent exit pop
returns none and the exit probe is a no-op, no event is ever emitted, and
the cache entry for the resolved identity is invalidated exactly once. -/
theorem C2_path_resolution_discard_short_circuits (cfg : Config) (m d : Nat)
    (retval : Int) (rev0 : Nat → Nat)
    (hpd : cfg.discarded_by_process cfg.entry_policy EVENT_RMDIR = false)
    (hrd : ∀ key ev, cfg.resolve_dentry_ret d key ev = DENTRY_DISCARDED) :
    ((kprobe_security_inode_rmdir cfg d
        (kprobe_mnt_want_write m
          (syscall_kprobe0_rmdir cfg (init_kernel rev0)).2)).2).pending = none ∧
    (pop_syscall (SYSCALL_RMDIR ||| SYSCALL_UNLINK)
        ((kprobe_security_inode_rmdir cfg d
          (kprobe_mnt_want_write m
            (syscall_kprobe0_rmdir cfg (init_kernel rev0)).2)).2)).1 = none ∧
    syscall_kretprobe_rmdir cfg retval
        ((kprobe_security_inode_rmdir cfg d
          (kprobe_mnt_want_write m
            (syscall_kprobe0_rmdir cfg (init_kernel rev0)).2)).2) =
      (0, ((kprobe_security_inode_rmdir cfg d
          (kprobe_mnt_want_write m
            (syscall_kprobe0_rmdir cfg (init_kernel rev0)).2)).2)) ∧
    ((kprobe_security_inode_rmdir cfg d
        (kprobe_mnt_want_write m
          (syscall_kprobe0_rmdir cfg (init_kernel rev0)).2)).2).events = [] ∧
    ((kprobe_security_inode_rmdir cfg d
        (kprobe_mnt_want_write m
          (syscall_kprobe0_rmdir cfg (init_kernel rev0)).2)).2).invalidations =
      [(m, cfg.dentry_ino d, true)] := by
  simp [syscall_kprobe0_rmdir, init_kernel, cache_syscall, kprobe_mnt_want_write,
    kprobe_security_inode_rmdir, peek_syscall, set_path_key_inode,
    resolution_tail, syscall_kretprobe_rmdir, pop_syscall, invalidate_inode,
    syscall_cache_t.rmdir, rmdir_mask_ne, syscall_rmdir_ne_zero,
    syscall_unlink_ne_zero, hpd, hrd]

/-- Closed instance of the amended C2 on the always-path-discarding config. -/
theorem C2_path_resolution_discard_witness :
    ((kprobe_security_inode_rmdir cfg_rdisc 1
        (kprobe_mnt_want_write 5
          (syscall_kprobe0_rmdir cfg_rdisc (init_kernel (fun _ => 0))).2)).2).pending = none ∧
    (pop_syscall (SYSCALL_RMDIR ||| SYSCALL_UNLINK)
        ((kprobe_security_inode_rmdir cfg_rdisc 1
          (kprobe_mnt_want_write 5
            (syscall_kprobe0_rmdir cfg_rdisc (init_kernel (fun _ => 0))).2)).2)).1 = none ∧
    syscall_kretprobe_rmdir cfg_rdisc 0
        ((kprobe_security_inode_rmdir cfg_rdisc 1
          (kprobe_mnt_want_write 5
            (syscall_kprobe0_rmdir cfg_rdisc (init_kernel (fun _ => 0))).2)).2) =
      (0, ((kprobe_security_inode_rmdir cfg_rdisc 1
          (kprobe_mnt_want_write 5
            (syscall_kprobe0_rmdir cfg_rdisc (init_kernel (fun _ => 0))).2)).2)) ∧
    ((kprobe_security_inode_rmdir cfg_rdisc 1
        (kprobe_mnt_want_write 5
          (syscall_kprobe0_rmdir cfg_rdisc (init_kernel (fun _ => 0))).2)).2).events = [] ∧
    ((kprobe_security_inode_rmdir cfg_rdisc 1
        (kprobe_mnt_want_write 5
          (syscall_kprobe0_rmdir cfg_rdisc (init_kernel (fun _ => 0))).2)).2).invalidations =
      [(5, 101, true)] :=
  C2_path_resolution_discard_short_circuits cfg_rdisc 5 1 0 (fun _ => 0) rfl
    (fun _ _ => rfl)

theorem cache_syscall_revisions (s : syscall_cache_t) (k : Kernel) :
    (cache_syscall s k).revisions = k.revisions := by
  unfold cache_syscall
  split <;> rfl

theorem kret_revisions_mono (cfg : Config) (retval : Int) (k : Kernel)
    (m : Nat) :
    k.revisions m ≤ ((syscall_kretprobe_rmdir cfg retval k).2).revisions m := by
  have h2 := pop_syscall_revisions (SYSCALL_RMDIR ||| SYSCALL_UNLINK) k
  unfold syscall_kretprobe_rmdir
  rcases hpop : pop_syscall (SYSCALL_RMDIR ||| SYSCALL_UNLINK) k with ⟨os, k2⟩
  rw [hpop] at h2
  have h3 : k2.revisions = k.revisions := h2
  cases os with
  | none => exact le_of_eq (congrFun h3 m).symm
  | some s =>
    dsimp only
    split
    · exact le_of_eq (congrFun h3 m).symm
    · cases hen : cfg.is_event_enabled EVENT_RMDIR with
      | false =>
          simp [send_event, bump_discarder_revision, invalidate_inode, hen, h3]
      | true =>
          by_cases hmm : m = s.rmdir.path_key.mount_id
          · subst hmm
            simp [send_event, bump_discarder_revision, invalidate_inode, hen, h3]
          · simp [send_event, bump_discarder_revision, invalidate_inode, hen,
              h3, hmm]

/-- C6: an unhandled-error return code pops the state, sends no event, bumps
no revision, and invalidates the inode cache entry of the state's identity
exactly once with the flag false. -/
theorem C6_unhandled_error_suppresses (cfg : Config) (retval : Int)
    (k : Kernel) (s : syscall_cache_t) (hp : k.pending = some s)
    (ht : s.type &&& (SYSCALL_RMDIR ||| SYSCALL_UNLINK) ≠ 0)
    (herr : cfg.is_unhandled_error retval = true) :
    ((syscall_kretprobe_rmdir cfg retval k).2).events = k.events ∧
    ((syscall_kretprobe_rmdir cfg retval k).2).revisions = k.revisions ∧
    ((syscall_kretprobe_rmdir cfg retval k).2).invalidations =
      k.invalidations ++
        [(s.rmdir.path_key.mount_id, s.rmdir.path_key.ino, false)] := by
  simp [syscall_kretprobe_rmdir, pop_syscall, invalidate_inode,
    syscall_cache_t.rmdir, hp, ht, herr]

/-- Closed instance of C6 at return code -13 on a frozen pending state. -/
theorem C6_unhandled_error_suppresses_witness :
    ((syscall_kretprobe_rmdir cfg_ok (-13) k_frozen).2).events = k_frozen.events ∧
    ((syscall_kretprobe_rmdir cfg_ok (-13) k_frozen).2).revisions =
      k_frozen.revisions ∧
    ((syscall_kretprobe_rmdir cfg_ok (-13) k_frozen).2).invalidations =
      k_frozen.invalidations ++ [(5, 42, false)] :=
  C6_unhandled_error_suppresses cfg_ok (-13) k_frozen s_frozen rfl (by decide)
    (by decide)

/-- C4 fails as stated: a successful NoFilter deletion emits the event yet
the invalidation collaborator receives flag false, not true. -/
theorem C4_counterexample :
    (run_full cfg_ok 5 1 0 (fun _ => 0)).events.length = 1 ∧
    (run_full cfg_ok 5 1 0 (fun _ => 0)).invalidations = [(5, 101, false)] := by
  decide

/-- C4 amended: on every pop with a handled return code the state's identity
is invalidated exactly once with the flag `!enabled` — false when an event
was emitted, true when it was not; in particular a successful NoFilter
deletion with emission passes false. -/
theorem C4_invalidation_flag_is_not_enabled (cfg : Config) (retval : Int)
    (k : Kernel) (s : syscall_cache_t) (hp : k.pending = some s)
    (ht : s.type &&& (SYSCALL_RMDIR ||| SYSCALL_UNLINK) ≠ 0)
    (herr : cfg.is_unhandled_error retval = false) :
    ((syscall_kretprobe_rmdir cfg retval k).2).invalidations =
      k.invalidations ++
        [(s.rmdir.path_key.mount_id, s.rmdir.path_key.ino,
          !cfg.is_event_enabled EVENT_RMDIR)] ∧
    ((syscall_kretprobe_rmdir cfg retval k).2).events.length =
      k.events.length + (if cfg.is_event_enabled EVENT_RMDIR then 1 else 0) := by
  cases hen : cfg.is_event_enabled EVENT_RMDIR <;>
    simp [syscall_kretprobe_rmdir, pop_syscall, invalidate_inode, send_event,
      bump_discarder_revision, syscall_cache_t.rmdir, hp, ht, herr, hen]

/-- Closed instance of the amended C4: emission happened and the flag passed
is false. -/
theorem C4_invalidation_flag_witness :
    ((syscall_kretprobe_rmdir cfg_ok 0 k_frozen).2).invalidations =
      k_frozen.invalidations ++ [(5, 42, false)] ∧
    ((syscall_kretprobe_rmdir cfg_ok 0 k_frozen).2).events.length =
      k_frozen.events.length + 1 :=
  C4_invalidation_flag_is_not_enabled cfg_ok 0 k_frozen s_frozen rfl (by decide)
    (by decide)

/-- The state cached by the entry probe, before any resolution. -/
def s0_entry (cfg : Config) : syscall_cache_t :=
  { type := SYSCALL_RMDIR, policy_mode := cfg.entry_policy,
    del := { path_key := { ino := 0, mount_id := 0, path_id := 0 },
             overlay_numlower := 0 } }

/-- C5 fails as stated: after the entry probe alone (resolution never ran),
the exit pop still returns the pending state, and the exit probe emits an
event (on an enabled, handled completion) and invalidates the cache. -/
theorem C5_counterexample :
    ((pop_syscall (SYSCALL_RMDIR ||| SYSCALL_UNLINK)
        (syscall_kprobe0_rmdir cfg_ok (init_kernel (fun _ => 0))).2).1).isSome
      = true ∧
    ((syscall_kretprobe_rmdir cfg_ok 0
        (syscall_kprobe0_rmdir cfg_ok (init_kernel (fun _ => 0))).2).2).events.length
      = 1 ∧
    ((syscall_kretprobe_rmdir cfg_ok 0
        (syscall_kprobe0_rmdir cfg_ok (init_kernel (fun _ => 0))).2).2).invalidations.length
      = 1 := by
  decide

/-- C5 amended: when the resolution hook never ran, the exit pop yields the
entry-created state with sentinel identity (inode 0, mount 0); the exit
probe then treats it like any popped state — it invalidates the sentinel
cache entry exactly once and sends an event iff the return code is handled
and the kind enabled. -/
theorem C5_unresolved_state_still_popped (cfg : Config) (retval : Int)
    (rev0 : Nat → Nat) :
    (pop_syscall (SYSCALL_RMDIR ||| SYSCALL_UNLINK)
        (syscall_kprobe0_rmdir cfg (init_kernel rev0)).2).1 = some (s0_entry cfg) ∧
    ((syscall_kretprobe_rmdir cfg retval
        (syscall_kprobe0_rmdir cfg (init_kernel rev0)).2).2).pending = none ∧
    ((syscall_kretprobe_rmdir cfg retval
        (syscall_kprobe0_rmdir cfg (init_kernel rev0)).2).2).invalidations.length
      = 1 ∧
    ((syscall_kretprobe_rmdir cfg retval
        (syscall_kprobe0_rmdir cfg (init_kernel rev0)).2).2).events.length =
      (if !cfg.is_unhandled_error retval && cfg.is_event_enabled EVENT_RMDIR
       then 1 else 0) := by
  cases herr : cfg.is_unhandled_error retval <;>
    cases hen : cfg.is_event_enabled EVENT_RMDIR <;>
      simp [syscall_kprobe0_rmdir, init_kernel, cache_syscall, pop_syscall,
        syscall_kretprobe_rmdir, invalidate_inode, send_event,
        bump_discarder_revision, s0_entry, rmdir_mask_ne,
        syscall_rmdir_ne_zero, herr, hen]

/-- C7 fails as stated: with emission disabled, a successful deletion
completion does not bump the mount's discarder revision. -/
theorem C7_counterexample :
    (run_full cfg_disabled 5 1 0 (fun _ => 41)).revisions 5 = 41 ∧
    (run_full cfg_disabled 5 1 0 (fun _ => 41)).pending = none ∧
    (run_full cfg_disabled 5 1 0 (fun _ => 41)).invalidations = [(5, 101, true)] := by
  decide

/-- C7 amended: the mount's discarder revision is bumped by exactly one on a
successful completion with emission enabled, the emitted event carries the
bumped value, and no probe ever decreases any mount's revision. -/
theorem C7_revision_bump_and_monotonicity (cfg : Config) (d mnt : Nat)
    (retval retval2 : Int) (k : Kernel) (s : syscall_cache_t)
    (hp : k.pending = some s)
    (ht : s.type &&& (SYSCALL_RMDIR ||| SYSCALL_UNLINK) ≠ 0)
    (herr : cfg.is_unhandled_error retval = false)
    (hen : cfg.is_event_enabled EVENT_RMDIR = true) :
    ((syscall_kretprobe_rmdir cfg retval k).2).revisions
        s.rmdir.path_key.mount_id =
      k.revisions s.rmdir.path_key.mount_id + 1 ∧
    ((syscall_kretprobe_rmdir cfg retval k).2).events =
      k.events ++
        [rmdir_event cfg retval s (k.revisions s.rmdir.path_key.mount_id + 1)] ∧
    k.revisions mnt ≤ ((syscall_kprobe0_rmdir cfg k).2).revisions mnt ∧
    k.revisions mnt ≤ ((kprobe_security_inode_rmdir cfg d k).2).revisions mnt ∧
    k.revisions mnt ≤ ((syscall_kretprobe_rmdir cfg retval2 k).2).revisions mnt := by
  refine ⟨?_, ?_, ?_, ?_, kret_revisions_mono cfg retval2 k mnt⟩
  · simp [syscall_kretprobe_rmdir, pop_syscall, invalidate_inode, send_event,
      bump_discarder_revision, syscall_cache_t.rmdir, hp, ht, herr, hen]
  · simp [syscall_kretprobe_rmdir, pop_syscall, invalidate_inode, send_event,
      bump_discarder_revision, rmdir_event, syscall_cache_t.rmdir, hp, ht,
      herr, hen]
  · rw [show ((syscall_kprobe0_rmdir cfg k).2) = cache_syscall (s0_entry cfg) k from rfl,
      cache_syscall_revisions]
  · rw [kprobe_security_revisions]

/-- Closed instance of the amended C7: the revision at mount 5 goes from 3
to 4 and the event carries 4. -/
theorem C7_revision_bump_witness :
    ((syscall_kretprobe_rmdir cfg_ok 0 k_frozen).2).revisions 5 =
      k_frozen.revisions 5 + 1 ∧
    ((syscall_kretprobe_rmdir cfg_ok 0 k_frozen).2).events =
      k_frozen.events ++ [rmdir_event cfg_ok 0 s_frozen (k_frozen.revisions 5 + 1)] ∧
    k_frozen.revisions 7 ≤ ((syscall_kprobe0_rmdir cfg_ok k_frozen).2).revisions 7 ∧
    k_frozen.revisions 7 ≤
      ((kprobe_security_inode_rmdir cfg_ok 1 k_frozen).2).revisions 7 ∧
    k_frozen.revisions 7 ≤
      ((syscall_kretprobe_rmdir cfg_ok (-13) k_frozen).2).revisions 7 :=
  C7_revision_bump_and_monotonicity cfg_ok 1 7 0 (-13) k_frozen s_frozen rfl
    (by decide) (by decide) rfl

/-- C8: for a fresh tracked state that the process filter does not discard,
the resolution probe performs exactly one path-resolution call, passing the
frozen identity and an effective event kind equal to the operation's kind
when the policy mode is an active filter and zero under NoFilter. -/
theorem C8_resolution_call_arguments (cfg : Config) (d : Nat) (k : Kernel)
    (s : syscall_cache_t) (hp : k.pending = some s)
    (ht : s.type = SYSCALL_RMDIR ∨ s.type = SYSCALL_UNLINK)
    (hino : s.rmdir.path_key.ino = 0)
    (hpd : ∀ et, cfg.discarded_by_process s.policy_mode et = false) :
    ((kprobe_security_inode_rmdir cfg d k).2).resolve_calls =
      k.resolve_calls ++
        [(d, set_path_key_inode cfg d s.rmdir.path_key,
          if s.policy_mode ≠ NO_FILTER
          then (if s.type = SYSCALL_RMDIR then EVENT_RMDIR else EVENT_UNLINK)
          else 0)] := by
  rcases ht with h | h
  · simp only [syscall_cache_t.rmdir] at hino ⊢
    simp [kprobe_security_inode_rmdir, peek_syscall, resolution_tail,
      invalidate_inode, pop_syscall, syscall_cache_t.rmdir, hp, h,
      rmdir_mask_ne, syscall_rmdir_ne_zero, hino, hpd]
    split <;> split <;> rfl
  · simp only [syscall_cache_t.rmdir] at hino ⊢
    simp [kprobe_security_inode_rmdir, peek_syscall, resolution_tail,
      invalidate_inode, pop_syscall, syscall_cache_t.unlink, unlink_ne_rmdir,
      hp, h, unlink_mask_ne, syscall_unlink_ne_zero, hino, hpd]
    split <;> split <;> rfl

/-- A fresh pending rmdir state under an active filter mode, mount 9. -/
def s_fresh : syscall_cache_t :=
  { type := SYSCALL_RMDIR, policy_mode := 1,
    del := { path_key := { ino := 0, mount_id := 9, path_id := 0 },
             overlay_numlower := 0 } }

/-- A kernel state holding `s_fresh` as the pending syscall. -/
def k_fresh : Kernel :=
  { init_kernel (fun _ => 0) with pending := some s_fresh }

/-- Closed instance of C8: active filter mode passes the operation's event
kind to the resolver, with the frozen identity. -/
theorem C8_resolution_call_arguments_witness :
    ((kprobe_security_inode_rmdir cfg_ok 1 k_fresh).2).resolve_calls =
      k_fresh.resolve_calls ++
        [(1, { ino := 101, mount_id := 9, path_id := 7 }, EVENT_RMDIR)] :=
  C8_resolution_call_arguments cfg_ok 1 k_fresh s_fresh rfl (Or.inl rfl) rfl
    (fun _ => rfl)

/-- A kernel state with a given pending syscall state. -/
def with_pending (k : Kernel) (s : syscall_cache_t) : Kernel :=
  { k with pending := some s }

/-- A syscall state with its kind tag replaced. -/
def set_type (s : syscall_cache_t) (t : Nat) : syscall_cache_t :=
  { s with type := t }

/-- C10: the exit probe never consults the popped state's kind tag: its
whole result is unchanged when the tag is swapped between any two
mask-matching kinds, emission is gated on `EVENT_RMDIR` enablement, and the
sent record is the `EVENT_RMDIR`-tagged event built from the `rmdir` union
view of the state. -/
theorem C10_exit_ignores_kind_tag (cfg : Config) (retval : Int) (k : Kernel)
    (s : syscall_cache_t) (t1 t2 : Nat)
    (h1 : t1 &&& (SYSCALL_RMDIR ||| SYSCALL_UNLINK) ≠ 0)
    (h2 : t2 &&& (SYSCALL_RMDIR ||| SYSCALL_UNLINK) ≠ 0) :
    syscall_kretprobe_rmdir cfg retval (with_pending k (set_type s t1)) =
      syscall_kretprobe_rmdir cfg retval (with_pending k (set_type s t2)) ∧
    ((syscall_kretprobe_rmdir cfg retval
        (with_pending k (set_type s t1))).2).events =
      k.events ++
        (if cfg.is_unhandled_error retval then []
         else if cfg.is_event_enabled EVENT_RMDIR then
           [rmdir_event cfg retval s (k.revisions s.rmdir.path_key.mount_id + 1)]
         else []) := by
  cases herr : cfg.is_unhandled_error retval <;>
    cases hen : cfg.is_event_enabled EVENT_RMDIR <;>
      simp [syscall_kretprobe_rmdir, with_pending, set_type, pop_syscall,
        invalidate_inode, send_event, bump_discarder_revision, rmdir_event,
        syscall_cache_t.rmdir, h1, h2, herr, hen]

/-- Closed instance of C10: swapping the kind tag between unlink and rmdir
does not change the exit probe's behaviour, and the emitted record carries
the rmdir kind. -/
theorem C10_exit_ignores_kind_tag_witness :
    syscall_kretprobe_rmdir cfg_ok 0
        (with_pending (init_kernel (fun _ => 0)) (set_type s_frozen SYSCALL_UNLINK)) =
      syscall_kretprobe_rmdir cfg_ok 0
        (with_pending (init_kernel (fun _ => 0)) (set_type s_frozen SYSCALL_RMDIR)) ∧
    ((syscall_kretprobe_rmdir cfg_ok 0
        (with_pending (init_kernel (fun _ => 0))
          (set_type s_frozen SYSCALL_UNLINK))).2).events =
      (init_kernel (fun _ => 0)).events ++
        (if cfg_ok.is_unhandled_error 0 then []
         else if cfg_ok.is_event_enabled EVENT_RMDIR then
           [rmdir_event cfg_ok 0 s_frozen
             ((init_kernel (fun _ => 0)).revisions s_frozen.rmdir.path_key.mount_id + 1)]
         else []) :=
  C10_exit_ignores_kind_tag cfg_ok 0 (init_kernel (fun _ => 0)) s_frozen
    SYSCALL_UNLINK SYSCALL_RMDIR (by decide) (by decide)

end RmdirProbe
